import Mathlib

/-!
Shallow embedding of src/server/src/repositories/email.repository.ts.

Optional TypeScript values are modelled as Option; the JS nullish
coalescing operator (a ?? b) becomes Option.getD, and JS string/boolean
truthiness is made explicit. Network effects (nodemailer transport
verify and sendMail) are modelled by an outcome parameter of type
Except, and each repository method is embedded as a pure function that
also returns the list of log entries it emits and the list of transport
lifecycle events it performs, in order.
-/

/-- JS truthiness of an optional string: true iff present and non-empty. -/
def strTruthy : Option String → Bool
  | some s => !s.isEmpty
  | none => false

/-- SmtpOptions from email.repository.ts. -/
structure SmtpOptions where
  host : String
  port : Option Nat := none
  secure : Option Bool := none
  username : Option String := none
  password : Option String := none
  ignoreCert : Option Bool := none
deriving DecidableEq, Repr

/-- The auth record passed to nodemailer when credentials are present. -/
structure SmtpAuth where
  user : Option String
  pass : Option String
deriving DecidableEq, Repr

/-- The fully resolved nodemailer transport configuration built by
createTransport (private method of EmailRepository). -/
structure TransportConfig where
  host : String
  port : Nat
  secure : Bool
  requireTLS : Bool
  rejectUnauthorized : Bool
  auth : Option SmtpAuth
  connectionTimeout : Nat
  greetingTimeout : Nat
  socketTimeout : Nat
  dnsTimeout : Nat
deriving DecidableEq, Repr

/-- Embedding of EmailRepository.createTransport: resolves partial SMTP
options into a complete transport configuration. Mirrors lines 184-205
of email.repository.ts. -/
def createTransport (options : SmtpOptions) : TransportConfig :=
  let port := options.port.getD (if options.secure.getD false then 465 else 587)
  let secure := options.secure.getD (port == 465)
  { host := options.host
    port := port
    secure := secure
    requireTLS := !secure && port == 587
    rejectUnauthorized := !(options.ignoreCert.getD false)
    auth :=
      if strTruthy options.username || strTruthy options.password then
        some { user := options.username, pass := options.password }
      else
        none
    connectionTimeout := 10000
    greetingTimeout := 10000
    socketTimeout := 10000
    dnsTimeout := 10000 }

/-- Rendering of an optional number inside a JS template literal:
undefined prints as the string undefined. -/
def showOptNat : Option Nat → String
  | some n => toString n
  | none => "undefined"

/-- Rendering of an optional boolean inside a JS template literal. -/
def showOptBool : Option Bool → String
  | some true => "true"
  | some false => "false"
  | none => "undefined"

/-- The redacted options record built at the top of verifySmtp
(lines 108-115): username defaulted, password replaced by a fixed
placeholder when truthy and by a fixed marker when not. -/
structure SafeOpts where
  host : String
  port : Option Nat
  secure : Option Bool
  username : String
  password : String
  ignoreCert : Option Bool
deriving DecidableEq, Repr

/-- Embedding of the safeOpts construction in verifySmtp. -/
def safeOpts (o : SmtpOptions) : SafeOpts :=
  { host := o.host
    port := o.port
    secure := o.secure
    username := o.username.getD "(none)"
    password := if strTruthy o.password then "********" else "(none)"
    ignoreCert := o.ignoreCert }

/-- JSON escaping of one character, covering the characters
JSON.stringify escapes that can occur in the strings at issue. -/
def jsonEscapeChar (c : Char) : String :=
  if c = Char.ofNat 34 then "\\\""
  else if c = Char.ofNat 92 then "\\\\"
  else if c = Char.ofNat 10 then "\\n"
  else if c = Char.ofNat 13 then "\\r"
  else if c = Char.ofNat 9 then "\\t"
  else String.singleton c

/-- JSON rendering of a string value, as JSON.stringify does. -/
def jsonString (s : String) : String :=
  "\"" ++ String.join (s.data.map jsonEscapeChar) ++ "\""

/-- JSON.stringify of the safeOpts record: keys in insertion order,
keys whose value is undefined omitted. -/
def safeOptsJson (s : SafeOpts) : String :=
  "\x7b\"host\":" ++ jsonString s.host
    ++ (match s.port with
        | some p => ",\"port\":" ++ toString p
        | none => "")
    ++ (match s.secure with
        | some true => ",\"secure\":true"
        | some false => ",\"secure\":false"
        | none => "")
    ++ ",\"username\":" ++ jsonString s.username
    ++ ",\"password\":" ++ jsonString s.password
    ++ (match s.ignoreCert with
        | some true => ",\"ignoreCert\":true"
        | some false => ",\"ignoreCert\":false"
        | none => "")
    ++ "\x7d"

/-- Log levels of the LoggingRepository methods used by this file. -/
inductive LogLevel
  | log
  | debug
  | error
deriving DecidableEq, Repr

/-- One message handed to the logger, with the optional stack trace
argument of logger.error. -/
structure LogEntry where
  level : LogLevel
  message : String
  stack : Option String := none
deriving DecidableEq, Repr

/-- An error raised by the transport, as consumed by the catch block of
verifySmtp: a message plus the optional NodeJS ErrnoException fields. -/
structure SmtpError where
  message : String
  code : Option String := none
  errno : Option Int := none
  stack : Option String := none
deriving DecidableEq, Repr

/-- Model of Array.prototype.join with separator comma-space. -/
def joinComma : List String → String
  | [] => ""
  | [x] => x
  | x :: y :: xs => x ++ ", " ++ joinComma (y :: xs)

/-- The details string assembled in the catch block of verifySmtp
(lines 126-132): message, code and errno parts kept only when truthy
(for errno: only when defined), joined by comma-space. -/
def errorDetails (e : SmtpError) : String :=
  joinComma
    ((if e.message.isEmpty then [] else [e.message])
      ++ (match e.code with
          | some c => if c.isEmpty then [] else ["code=" ++ c]
          | none => [])
      ++ (match e.errno with
          | some n => ["errno=" ++ toString n]
          | none => []))

/-- Transport lifecycle events, in the order a repository method
performs them. -/
inductive TransportEvent
  | createTransport
  | verify
  | sendMail
  | close
deriving DecidableEq, Repr

/-- Result of one embedded verifySmtp call: logs emitted, transport
events performed, and the returned or re-raised outcome. -/
structure VerifyRun where
  logs : List LogEntry
  events : List TransportEvent
  result : Except SmtpError Bool
deriving Repr

/-- Embedding of EmailRepository.verifySmtp (lines 107-138). The
outcome of the network call transport.verify is the parameter
verifyOutcome; everything else follows the source control flow: two
leading log lines, createTransport, verify inside try, a success log
and return true, or a catch that logs the classified error and
re-raises it, and a finally that closes the transport on both paths. -/
def verifySmtp (options : SmtpOptions) (verifyOutcome : Except SmtpError Unit) : VerifyRun :=
  let headLogs : List LogEntry :=
    [ { level := LogLevel.log
        message := "Verifying SMTP connection to " ++ options.host ++ ":"
          ++ showOptNat options.port ++ " (secure=" ++ showOptBool options.secure ++ ")" }
    , { level := LogLevel.debug
        message := "SMTP options: " ++ safeOptsJson (safeOpts options) } ]
  match verifyOutcome with
  | Except.ok _ =>
      { logs := headLogs
          ++ [ { level := LogLevel.log
                 message := "SMTP verification successful for " ++ options.host ++ ":"
                   ++ showOptNat options.port } ]
        events := [TransportEvent.createTransport, TransportEvent.verify, TransportEvent.close]
        result := Except.ok true }
  | Except.error e =>
      { logs := headLogs
          ++ [ { level := LogLevel.error
                 message := "SMTP verification failed for " ++ options.host ++ ":"
                   ++ showOptNat options.port ++ ": " ++ errorDetails e
                 stack := e.stack } ]
        events := [TransportEvent.createTransport, TransportEvent.verify, TransportEvent.close]
        result := Except.error e }

/-- EmailImageAttachment from src/types, with the three fields the
dispatcher reads (filename, path, cid). -/
structure EmailImageAttachment where
  filename : String
  path : String
  cid : String
deriving DecidableEq, Repr

/-- One entry of the attachments array handed to transport.sendMail
(lines 151-155). -/
structure MailAttachment where
  filename : String
  path : String
  cid : String
deriving DecidableEq, Repr

/-- SendEmailOptions from email.repository.ts. -/
structure SendEmailOptions where
  «from» : String
  «to» : String
  replyTo : Option String := none
  subject : String
  html : String
  text : String
  imageAttachments : Option (List EmailImageAttachment) := none
  smtp : SmtpOptions
deriving DecidableEq, Repr

/-- The message object handed to transport.sendMail on line 158: it has
exactly the fields to, from, subject, html, text and attachments. -/
structure MailMessage where
  «to» : String
  «from» : String
  subject : String
  html : String
  text : String
  attachments : Option (List MailAttachment)
deriving DecidableEq, Repr

/-- SendEmailResponse from email.repository.ts; the opaque provider
response is modelled as a string. -/
structure SendEmailResponse where
  messageId : String
  response : String
deriving DecidableEq, Repr

/-- Result of one embedded sendEmail call: logs, transport events, the
message object handed to the transport, and the delivery outcome. -/
structure SendRun where
  logs : List LogEntry
  events : List TransportEvent
  message : MailMessage
  result : Except SmtpError SendEmailResponse
deriving Repr

/-- Embedding of EmailRepository.sendEmail (lines 147-162). The outcome
of the network call transport.sendMail is the parameter sendOutcome.
The source logs one debug line, creates the transport, maps the
optional image attachments, calls sendMail inside try and closes the
transport in the finally on both paths. The replyTo option is not read
anywhere in the body. -/
def sendEmail (o : SendEmailOptions) (sendOutcome : Except SmtpError SendEmailResponse) : SendRun :=
  let attachments : Option (List MailAttachment) :=
    o.imageAttachments.map (fun l => l.map (fun attachment =>
      { filename := attachment.filename
        path := attachment.path
        cid := attachment.cid }))
  { logs := [ { level := LogLevel.debug
                message := "Sending email to " ++ o.«to» ++ " with subject: " ++ o.subject } ]
    events := [TransportEvent.createTransport, TransportEvent.sendMail, TransportEvent.close]
    message :=
      { «to» := o.«to»
        «from» := o.«from»
        subject := o.subject
        html := o.html
        text := o.text
        attachments := attachments }
    result := sendOutcome }

/-- The EmailTemplate enumeration. -/
inductive EmailTemplate
  | TEST_EMAIL
  | WELCOME
  | RESET_PASSWORD
  | ALBUM_INVITE
  | ALBUM_UPDATE
deriving DecidableEq, Repr

/-- The stable string value of each EmailTemplate member. -/
def EmailTemplate.value : EmailTemplate → String
  | EmailTemplate.TEST_EMAIL => "test"
  | EmailTemplate.WELCOME => "welcome"
  | EmailTemplate.RESET_PASSWORD => "reset-password"
  | EmailTemplate.ALBUM_INVITE => "album-invite"
  | EmailTemplate.ALBUM_UPDATE => "album-update"

/-- TestEmailProps. -/
structure TestEmailProps where
  baseUrl : String
  customTemplate : Option String := none
  displayName : String
deriving DecidableEq, Repr

/-- WelcomeEmailProps. -/
structure WelcomeEmailProps where
  baseUrl : String
  customTemplate : Option String := none
  displayName : String
  username : String
  password : Option String := none
deriving DecidableEq, Repr

/-- AlbumInviteEmailProps. -/
structure AlbumInviteEmailProps where
  baseUrl : String
  customTemplate : Option String := none
  albumName : String
  albumId : String
  senderName : String
  recipientName : String
  cid : Option String := none
deriving DecidableEq, Repr

/-- AlbumUpdateEmailProps. -/
structure AlbumUpdateEmailProps where
  baseUrl : String
  customTemplate : Option String := none
  albumName : String
  albumId : String
  recipientName : String
  cid : Option String := none
deriving DecidableEq, Repr

/-- The EmailRenderRequest tagged union: each variant pairs the props
record with the request level customTemplate string. The tag of each
constructor corresponds to the EmailTemplate member of the source
variant. -/
inductive EmailRenderRequest
  | testEmail (data : TestEmailProps) (customTemplate : String)
  | welcome (data : WelcomeEmailProps) (customTemplate : String)
  | albumInvite (data : AlbumInviteEmailProps) (customTemplate : String)
  | albumUpdate (data : AlbumUpdateEmailProps) (customTemplate : String)
deriving DecidableEq, Repr

/-- The React element built by the private render method: one of the
four template components applied to its effective props, where the
spread on lines 167-179 overrides the customTemplate field of the data
record with the request level string. -/
inductive EmailComponent
  | testEmail (props : TestEmailProps)
  | welcome (props : WelcomeEmailProps)
  | albumInvite (props : AlbumInviteEmailProps)
  | albumUpdate (props : AlbumUpdateEmailProps)
deriving DecidableEq, Repr

/-- Embedding of the private EmailRepository.render dispatch
(lines 164-182): switch on the template tag, pass the spread props to
the matching component. -/
def renderComponent : EmailRenderRequest → EmailComponent
  | EmailRenderRequest.testEmail data customTemplate =>
      EmailComponent.testEmail { data with customTemplate := some customTemplate }
  | EmailRenderRequest.welcome data customTemplate =>
      EmailComponent.welcome { data with customTemplate := some customTemplate }
  | EmailRenderRequest.albumInvite data customTemplate =>
      EmailComponent.albumInvite { data with customTemplate := some customTemplate }
  | EmailRenderRequest.albumUpdate data customTemplate =>
      EmailComponent.albumUpdate { data with customTemplate := some customTemplate }

/-- Modelled from the spec: the template components (src/emails, not
under the sources reviewed here) and the react-email html renderer are
treated as a pure function from the component to its compact html
form; per the spec the welcome rendering contains the display name. -/
def renderHtmlOf : EmailComponent → String
  | EmailComponent.testEmail p =>
      "<html><body>Test email for " ++ p.displayName ++ " at " ++ p.baseUrl ++ "</body></html>"
  | EmailComponent.welcome p =>
      "<html><body>Welcome " ++ p.displayName ++ ", your username is " ++ p.username
        ++ ". Visit " ++ p.baseUrl ++ "</body></html>"
  | EmailComponent.albumInvite p =>
      "<html><body>" ++ p.senderName ++ " invited " ++ p.recipientName ++ " to album "
        ++ p.albumName ++ "</body></html>"
  | EmailComponent.albumUpdate p =>
      "<html><body>New activity for " ++ p.recipientName ++ " in album "
        ++ p.albumName ++ "</body></html>"

/-- Modelled from the spec: the plain text rendering of the same
component by the react-email renderer, a pure function; per the spec
the welcome rendering contains the display name. -/
def renderTextOf : EmailComponent → String
  | EmailComponent.testEmail p =>
      "Test email for " ++ p.displayName ++ " at " ++ p.baseUrl
  | EmailComponent.welcome p =>
      "Welcome " ++ p.displayName ++ ", your username is " ++ p.username
        ++ ". Visit " ++ p.baseUrl
  | EmailComponent.albumInvite p =>
      p.senderName ++ " invited " ++ p.recipientName ++ " to album " ++ p.albumName
  | EmailComponent.albumUpdate p =>
      "New activity for " ++ p.recipientName ++ " in album " ++ p.albumName

/-- The rendered document pair returned by renderEmail. -/
structure RenderedDocument where
  html : String
  text : String
deriving DecidableEq, Repr

/-- Embedding of EmailRepository.renderEmail (lines 140-145): build the
component once through the dispatch, render it as compact html and as
plain text. -/
def renderEmail (request : EmailRenderRequest) : RenderedDocument :=
  let component := renderComponent request
  { html := renderHtmlOf component
    text := renderTextOf component }

/-- Helper: string truthiness characterised as presence of a non-empty
value. -/
theorem strTruthy_eq_true_iff (x : Option String) :
    strTruthy x = true ↔ ∃ s, x = some s ∧ s ≠ "" := by
  cases x with
  | none => simp [strTruthy]
  | some s =>
      simp only [strTruthy, Bool.not_eq_true']
      constructor
      · intro h
        refine ⟨s, rfl, ?_⟩
        intro hs
        rw [hs] at h
        exact absurd h (by decide)
      · rintro ⟨t, ht, hne⟩
        cases ht
        cases hq : s.isEmpty
        · rfl
        · exact absurd ((String.isEmpty_iff s).mp hq) hne

/-- C1: the resolved transport configuration satisfies the three
defining equations of the configurator (port from explicit value or
secure-driven default, implicit TLS from explicit value or port
inference, STARTTLS required exactly on a non-implicit-TLS port 587);
with port unset and secure unset or false the result is 587 with
STARTTLS; with secure true and port unset the result is 465 with
implicit TLS; and explicit port and secure values are taken verbatim. -/
theorem createTransport_resolution (o : SmtpOptions) (p : Nat) (s : Bool) :
    ((createTransport o).port = o.port.getD (if o.secure = some true then 465 else 587))
    ∧ ((createTransport o).secure = o.secure.getD ((createTransport o).port == 465))
    ∧ ((createTransport o).requireTLS
        = (!(createTransport o).secure && (createTransport o).port == 587))
    ∧ ((createTransport { o with port := none, secure := none }).port = 587
        ∧ (createTransport { o with port := none, secure := none }).secure = false
        ∧ (createTransport { o with port := none, secure := none }).requireTLS = true)
    ∧ ((createTransport { o with port := none, secure := some false }).port = 587
        ∧ (createTransport { o with port := none, secure := some false }).secure = false
        ∧ (createTransport { o with port := none, secure := some false }).requireTLS = true)
    ∧ ((createTransport { o with port := none, secure := some true }).port = 465
        ∧ (createTransport { o with port := none, secure := some true }).secure = true
        ∧ (createTransport { o with port := none, secure := some true }).requireTLS = false)
    ∧ ((createTransport { o with port := some p, secure := some s }).port = p
        ∧ (createTransport { o with port := some p, secure := some s }).secure = s) := by
  refine ⟨?_, rfl, rfl, ⟨rfl, rfl, rfl⟩, ⟨rfl, rfl, rfl⟩, ⟨rfl, rfl, rfl⟩, rfl, rfl⟩
  rcases o with ⟨h, port, secure, u, pw, ic⟩
  rcases secure with _ | b
  · rfl
  · cases b <;> rfl

/-- Witness for C1 at a concrete input: secure true with port unset
resolves to port 465. -/
theorem createTransport_resolution_witness :
    (createTransport { host := "smtp.example.com", secure := some true }).port = 465 :=
  (createTransport_resolution { host := "smtp.example.com", secure := some true }
    0 false).2.2.2.2.2.1.1

/-- C5: the resolved configuration never has implicit TLS and required
STARTTLS both set. -/
theorem tls_modes_mutually_exclusive (o : SmtpOptions) :
    ((createTransport o).secure && (createTransport o).requireTLS) = false := by
  have hb : ∀ (a b : Bool), (a && (!a && b)) = false := by decide
  exact hb ((createTransport o).secure) ((createTransport o).port == 587)

/-- Witness for C5 at a concrete input. -/
theorem tls_modes_mutually_exclusive_witness :
    ((createTransport { host := "smtp.example.com", port := some 587 }).secure
      && (createTransport { host := "smtp.example.com", port := some 587 }).requireTLS) = false :=
  tls_modes_mutually_exclusive { host := "smtp.example.com", port := some 587 }

/-- C7: the four transport timeouts are fixed at 10000 ms for every
input. -/
theorem createTransport_fixed_timeouts (o : SmtpOptions) :
    (createTransport o).connectionTimeout = 10000
    ∧ (createTransport o).greetingTimeout = 10000
    ∧ (createTransport o).socketTimeout = 10000
    ∧ (createTransport o).dnsTimeout = 10000 :=
  ⟨rfl, rfl, rfl, rfl⟩

/-- Witness for C7 at a concrete input. -/
theorem createTransport_fixed_timeouts_witness :
    (createTransport { host := "smtp.example.com" }).connectionTimeout = 10000 :=
  (createTransport_fixed_timeouts { host := "smtp.example.com" }).1

/-- C4: the resolved configuration carries an auth record exactly when
the username or the password is a present, non-empty string; with both
absent or empty the auth field is none. -/
theorem createTransport_auth_condition (o : SmtpOptions) :
    ((createTransport o).auth.isSome = true ↔
      (∃ s, o.username = some s ∧ s ≠ "") ∨ (∃ s, o.password = some s ∧ s ≠ ""))
    ∧ ((createTransport { o with username := none, password := none }).auth = none)
    ∧ ((createTransport { o with username := some "", password := some "" }).auth = none)
    ∧ ((createTransport { o with username := none, password := some "" }).auth = none)
    ∧ ((createTransport { o with username := some "", password := none }).auth = none)
    ∧ (∀ (u : String) (pw : Option String), u ≠ "" →
        (createTransport { o with username := some u, password := pw }).auth
          = some { user := some u, pass := pw }) := by
  refine ⟨?_, rfl, rfl, rfl, rfl, ?_⟩
  · have hauth : (createTransport o).auth
        = if strTruthy o.username || strTruthy o.password then
            some { user := o.username, pass := o.password } else none := rfl
    rw [hauth]
    have : (if strTruthy o.username || strTruthy o.password then
        some (SmtpAuth.mk o.username o.password) else none).isSome
        = (strTruthy o.username || strTruthy o.password) := by
      cases strTruthy o.username || strTruthy o.password <;> simp
    rw [this, Bool.or_eq_true, strTruthy_eq_true_iff, strTruthy_eq_true_iff]
  · intro u pw hu
    have ht : strTruthy (some u) = true := (strTruthy_eq_true_iff _).mpr ⟨u, rfl, hu⟩
    have hauth : (createTransport { o with username := some u, password := pw }).auth
        = if strTruthy (some u) || strTruthy pw then
            some { user := some u, pass := pw } else none := rfl
    rw [hauth, ht]
    rfl

/-- Witness for C4 at a concrete input: a non-empty username yields an
auth record and absent credentials yield none. -/
theorem createTransport_auth_condition_witness :
    (createTransport
        { host := "smtp.example.com", username := some "admin", password := some "pw" }).auth
      = some { user := some "admin", pass := some "pw" } :=
  (createTransport_auth_condition
    { host := "smtp.example.com", password := some "pw" }).2.2.2.2.2
    "admin" (some "pw") (by decide)

/-- C2: every embedded verifySmtp and sendEmail call, for every outcome
of the underlying network operation, performs exactly one transport
close, exactly one transport creation, and the close is the final
transport event of the call. -/
theorem transport_session_close_once (o : SmtpOptions) (vr : Except SmtpError Unit)
    (so : SendEmailOptions) (sr : Except SmtpError SendEmailResponse) :
    ((verifySmtp o vr).events.count TransportEvent.close = 1)
    ∧ ((verifySmtp o vr).events.count TransportEvent.createTransport = 1)
    ∧ ((verifySmtp o vr).events.getLast? = some TransportEvent.close)
    ∧ ((sendEmail so sr).events.count TransportEvent.close = 1)
    ∧ ((sendEmail so sr).events.count TransportEvent.createTransport = 1)
    ∧ ((sendEmail so sr).events.getLast? = some TransportEvent.close) := by
  cases vr <;> exact ⟨rfl, rfl, rfl, rfl, rfl, rfl⟩

/-- Witness for C2 at a concrete input. -/
theorem transport_session_close_once_witness :
    (verifySmtp { host := "smtp.example.com" } (Except.ok ())).events.count
      TransportEvent.close = 1 :=
  (transport_session_close_once { host := "smtp.example.com" } (Except.ok ())
    { «from» := "a@x", «to» := "b@y", subject := "s", html := "<p>h</p>", text := "t",
      smtp := { host := "smtp.example.com" } }
    (Except.ok { messageId := "m1", response := "250 OK" })).1

/-- C3: the log output of verifySmtp does not depend on the value of a
present non-empty password (two runs differing only in that value log
identically); the redacted record renders a present non-empty password
as the fixed placeholder, an absent password and an absent username as
the fixed none marker, the rendered password field is always one of the
two fixed strings, and the second log line is exactly the debug dump of
the redacted record. -/
theorem verifySmtp_password_redaction (o : SmtpOptions) (vr : Except SmtpError Unit) :
    (∀ p₁ p₂ : String, p₁ ≠ "" → p₂ ≠ "" →
      (verifySmtp { o with password := some p₁ } vr).logs
        = (verifySmtp { o with password := some p₂ } vr).logs)
    ∧ (∀ q : String, o.password = some q → q ≠ "" → (safeOpts o).password = "********")
    ∧ (o.password = none → (safeOpts o).password = "(none)")
    ∧ (o.username = none → (safeOpts o).username = "(none)")
    ∧ ((safeOpts o).password = "********" ∨ (safeOpts o).password = "(none)")
    ∧ ((verifySmtp o vr).logs[1]? = some
        { level := LogLevel.debug
          message := "SMTP options: " ++ safeOptsJson (safeOpts o) }) := by
  refine ⟨?_, ?_, ?_, ?_, ?_, ?_⟩
  · intro p₁ p₂ h₁ h₂
    have e₁ : strTruthy (some p₁) = true := (strTruthy_eq_true_iff _).mpr ⟨p₁, rfl, h₁⟩
    have e₂ : strTruthy (some p₂) = true := (strTruthy_eq_true_iff _).mpr ⟨p₂, rfl, h₂⟩
    have hs : safeOpts { o with password := some p₁ }
        = safeOpts { o with password := some p₂ } := by
      simp [safeOpts, e₁, e₂]
    cases vr <;> simp [verifySmtp, hs]
  · intro q hq hne
    have ht : strTruthy o.password = true := (strTruthy_eq_true_iff _).mpr ⟨q, hq, hne⟩
    simp [safeOpts, ht]
  · intro h
    simp [safeOpts, h, strTruthy]
  · intro h
    simp [safeOpts, h]
  · cases ht : strTruthy o.password
    · exact Or.inr (by simp [safeOpts, ht])
    · exact Or.inl (by simp [safeOpts, ht])
  · cases vr <;> rfl

/-- Witness for C3 at concrete inputs: two runs that differ only in the
password value emit identical logs. -/
theorem verifySmtp_password_redaction_witness :
    (verifySmtp { host := "smtp.example.com", password := some "hunter2" }
        (Except.ok ())).logs
      = (verifySmtp { host := "smtp.example.com", password := some "letmein" }
          (Except.ok ())).logs :=
  (verifySmtp_password_redaction { host := "smtp.example.com" } (Except.ok ())).1
    "hunter2" "letmein" (by decide) (by decide)

/-- Helper: joining a non-empty list starts with its head. -/
theorem joinComma_cons (x : String) (l : List String) :
    ∃ rest, joinComma (x :: l) = x ++ rest := by
  cases l with
  | nil => exact ⟨"", by simp [joinComma, String.append_empty]⟩
  | cons y ys =>
      exact ⟨", " ++ joinComma (y :: ys), by simp [joinComma, String.append_assoc]⟩

/-- Helper: joining a list that ends with x ends with x. -/
theorem joinComma_concat (l : List String) (x : String) :
    ∃ a, joinComma (l ++ [x]) = a ++ x := by
  induction l with
  | nil => exact ⟨"", by simp [joinComma, String.empty_append]⟩
  | cons h t ih =>
      obtain ⟨a, ha⟩ := ih
      cases t with
      | nil =>
          exact ⟨h ++ ", ", by simp [joinComma, String.append_assoc]⟩
      | cons y ys =>
          refine ⟨h ++ ", " ++ a, ?_⟩
          have : joinComma (h :: (y :: ys ++ [x])) = h ++ ", " ++ joinComma (y :: ys ++ [x]) := by
            simp [joinComma]
          simp only [List.cons_append] at this ⊢
          rw [this]
          rw [List.cons_append] at ha
          rw [ha]
          simp [String.append_assoc]

/-- Helper: an element of the joined list appears between two joined
halves. -/
theorem joinComma_infix (l₁ l₂ : List String) (x : String) :
    ∃ a b, joinComma (l₁ ++ x :: l₂) = a ++ x ++ b := by
  induction l₁ with
  | nil =>
      cases l₂ with
      | nil => exact ⟨"", "", by simp [joinComma, String.empty_append, String.append_empty]⟩
      | cons y ys =>
          refine ⟨"", ", " ++ joinComma (y :: ys), ?_⟩
          simp [joinComma, String.empty_append, String.append_assoc]
  | cons h t ih =>
      obtain ⟨a, b, hab⟩ := ih
      cases ht : t ++ x :: l₂ with
      | nil => exact absurd ht (by simp)
      | cons z zs =>
          refine ⟨h ++ ", " ++ a, b, ?_⟩
          have step : joinComma (h :: (t ++ x :: l₂)) = h ++ ", " ++ joinComma (t ++ x :: l₂) := by
            rw [ht]
            simp [joinComma]
          simp only [List.cons_append]
          rw [step, hab]
          simp [String.append_assoc]

/-- C6: verifySmtp returns true exactly when the verify outcome is a
success; on failure the same error is re-raised unchanged, after the
final log entry records the failure with a details string that carries
the error message (when non-empty), the error code (when present and
non-empty) and the errno (when present); verify is attempted exactly
once, so nothing is retried or suppressed. -/
theorem verifySmtp_error_propagation (o : SmtpOptions) (e : SmtpError)
    (vr : Except SmtpError Unit) :
    ((verifySmtp o (Except.ok ())).result = Except.ok true)
    ∧ ((verifySmtp o vr).result = Except.ok true ↔ vr = Except.ok ())
    ∧ ((verifySmtp o (Except.error e)).result = Except.error e)
    ∧ ((verifySmtp o (Except.error e)).logs.getLast? = some
        { level := LogLevel.error
          message := "SMTP verification failed for " ++ o.host ++ ":" ++ showOptNat o.port
            ++ ": " ++ errorDetails e
          stack := e.stack })
    ∧ ((verifySmtp o vr).events.count TransportEvent.verify = 1)
    ∧ (e.message ≠ "" → ∃ rest, errorDetails e = e.message ++ rest)
    ∧ (∀ c, e.code = some c → c ≠ "" → ∃ a b, errorDetails e = a ++ ("code=" ++ c) ++ b)
    ∧ (∀ n, e.errno = some n → ∃ a, errorDetails e = a ++ ("errno=" ++ toString n)) := by
  refine ⟨rfl, ?_, rfl, rfl, ?_, ?_, ?_, ?_⟩
  · cases vr with
    | ok u => cases u; simp [verifySmtp]
    | error e₀ => simp [verifySmtp]
  · cases vr <;> rfl
  · intro hm
    have hmE : e.message.isEmpty = false := by
      cases h : e.message.isEmpty
      · rfl
      · exact absurd ((String.isEmpty_iff e.message).mp h) hm
    have hshape : errorDetails e
        = joinComma (e.message
            :: ((match e.code with
                | some c => if c.isEmpty then [] else ["code=" ++ c]
                | none => [])
              ++ (match e.errno with
                  | some n => ["errno=" ++ toString n]
                  | none => []))) := by
      simp [errorDetails, hmE]
    rw [hshape]
    exact joinComma_cons _ _
  · intro c hc hcne
    have hcE : c.isEmpty = false := by
      cases h : c.isEmpty
      · rfl
      · exact absurd ((String.isEmpty_iff c).mp h) hcne
    have hshape : errorDetails e
        = joinComma ((if e.message.isEmpty then [] else [e.message])
            ++ ("code=" ++ c)
            :: (match e.errno with
                | some n => ["errno=" ++ toString n]
                | none => [])) := by
      simp [errorDetails, hc, hcE, List.append_assoc]
    rw [hshape]
    exact joinComma_infix _ _ _
  · intro n hn
    have hshape : errorDetails e
        = joinComma (((if e.message.isEmpty then [] else [e.message])
            ++ (match e.code with
                | some c => if c.isEmpty then [] else ["code=" ++ c]
                | none => []))
            ++ ["errno=" ++ toString n]) := by
      simp [errorDetails, hn]
    rw [hshape]
    exact joinComma_concat _ _

/-- Witness for C6 at concrete inputs: a connection-refused error is
re-raised and its details string starts with the message. -/
theorem verifySmtp_error_propagation_witness :
    ∃ rest, errorDetails
        { message := "Connection refused", code := some "ECONNREFUSED",
          errno := some (-111), stack := none }
      = "Connection refused" ++ rest :=
  (verifySmtp_error_propagation { host := "smtp.example.com" }
      { message := "Connection refused", code := some "ECONNREFUSED",
        errno := some (-111), stack := none }
      (Except.ok ())).2.2.2.2.2.1 (by decide)

/-- C8: renderEmail dispatches on the template tag to the matching
template component, passing the props through with the request level
customTemplate override; it is a pure function, so identical inputs
give identical rendered documents; and the welcome render for display
name Ann yields non-empty html and text both containing Ann. -/
theorem renderEmail_dispatch_deterministic (dt : TestEmailProps) (dw : WelcomeEmailProps)
    (di : AlbumInviteEmailProps) (du : AlbumUpdateEmailProps) (c : String)
    (r : EmailRenderRequest) :
    (renderComponent (EmailRenderRequest.testEmail dt c)
        = EmailComponent.testEmail { dt with customTemplate := some c })
    ∧ (renderComponent (EmailRenderRequest.welcome dw c)
        = EmailComponent.welcome { dw with customTemplate := some c })
    ∧ (renderComponent (EmailRenderRequest.albumInvite di c)
        = EmailComponent.albumInvite { di with customTemplate := some c })
    ∧ (renderComponent (EmailRenderRequest.albumUpdate du c)
        = EmailComponent.albumUpdate { du with customTemplate := some c })
    ∧ (renderEmail r
        = { html := renderHtmlOf (renderComponent r)
            text := renderTextOf (renderComponent r) })
    ∧ (renderEmail r = renderEmail r)
    ∧ (0 < (renderEmail (EmailRenderRequest.welcome
        { baseUrl := "https://x", displayName := "Ann", username := "ann" } "")).html.length)
    ∧ (∃ a b, (renderEmail (EmailRenderRequest.welcome
        { baseUrl := "https://x", displayName := "Ann", username := "ann" } "")).html
          = a ++ "Ann" ++ b)
    ∧ (0 < (renderEmail (EmailRenderRequest.welcome
        { baseUrl := "https://x", displayName := "Ann", username := "ann" } "")).text.length)
    ∧ (∃ a b, (renderEmail (EmailRenderRequest.welcome
        { baseUrl := "https://x", displayName := "Ann", username := "ann" } "")).text
          = a ++ "Ann" ++ b) := by
  refine ⟨rfl, rfl, rfl, rfl, rfl, rfl, by decide, ?_, by decide, ?_⟩
  · exact ⟨"<html><body>Welcome ",
      ", your username is ann. Visit https://x</body></html>", by decide⟩
  · exact ⟨"Welcome ", ", your username is ann. Visit https://x", by decide⟩

/-- Witness for C8 at concrete inputs: the welcome dispatch equation at
a concrete props record. -/
theorem renderEmail_dispatch_deterministic_witness :
    renderComponent (EmailRenderRequest.welcome
        { baseUrl := "https://x", displayName := "Ann", username := "ann" } "tpl")
      = EmailComponent.welcome
          { baseUrl := "https://x", customTemplate := some "tpl", displayName := "Ann",
            username := "ann" } :=
  (renderEmail_dispatch_deterministic
    { baseUrl := "https://x", displayName := "Ann" }
    { baseUrl := "https://x", displayName := "Ann", username := "ann" }
    { baseUrl := "https://x", albumName := "a", albumId := "i", senderName := "s",
      recipientName := "r" }
    { baseUrl := "https://x", albumName := "a", albumId := "i", recipientName := "r" }
    "tpl"
    (EmailRenderRequest.welcome
      { baseUrl := "https://x", displayName := "Ann", username := "ann" } "tpl")).2.1

/-- C9: the attachments handed to the transport are the input image
attachments mapped one to one in order, keeping filename and path and
using the content id as the attachment cid; two inputs yield exactly
two entries; an absent imageAttachments yields an absent attachment
list. -/
theorem sendEmail_attachment_mapping (o : SendEmailOptions)
    (sr : Except SmtpError SendEmailResponse) (l : List EmailImageAttachment)
    (a₁ a₂ : EmailImageAttachment) (i : Nat) :
    ((sendEmail { o with imageAttachments := some l } sr).message.attachments
        = some (l.map (fun a =>
            { filename := a.filename, path := a.path, cid := a.cid })))
    ∧ (((sendEmail { o with imageAttachments := some l } sr).message.attachments.getD
          []).length = l.length)
    ∧ (((sendEmail { o with imageAttachments := some l } sr).message.attachments.getD
          [])[i]?
        = (l[i]?).map (fun a => { filename := a.filename, path := a.path, cid := a.cid }))
    ∧ ((sendEmail { o with imageAttachments := some [a₁, a₂] } sr).message.attachments
        = some [ { filename := a₁.filename, path := a₁.path, cid := a₁.cid },
                 { filename := a₂.filename, path := a₂.path, cid := a₂.cid } ])
    ∧ ((sendEmail { o with imageAttachments := none } sr).message.attachments = none) := by
  refine ⟨rfl, ?_, ?_, rfl, rfl⟩
  · simp [sendEmail]
  · simp [sendEmail]

/-- Witness for C9 at concrete inputs: two attachments map to exactly
two transport entries with matching cids. -/
theorem sendEmail_attachment_mapping_witness :
    (sendEmail
        { «from» := "a@x", «to» := "b@y", subject := "s", html := "<p>h</p>", text := "t",
          imageAttachments := some
            [ { filename := "one.png", path := "/tmp/one.png", cid := "cid-1" },
              { filename := "two.png", path := "/tmp/two.png", cid := "cid-2" } ],
          smtp := { host := "smtp.example.com" } }
        (Except.ok { messageId := "m1", response := "250 OK" })).message.attachments
      = some [ { filename := "one.png", path := "/tmp/one.png", cid := "cid-1" },
               { filename := "two.png", path := "/tmp/two.png", cid := "cid-2" } ] :=
  (sendEmail_attachment_mapping
    { «from» := "a@x", «to» := "b@y", subject := "s", html := "<p>h</p>", text := "t",
      smtp := { host := "smtp.example.com" } }
    (Except.ok { messageId := "m1", response := "250 OK" })
    []
    { filename := "one.png", path := "/tmp/one.png", cid := "cid-1" }
    { filename := "two.png", path := "/tmp/two.png", cid := "cid-2" }
    0).2.2.2.1

/-- C10: the message object handed to the transport consists of exactly
the destructured to, from, subject, html, text and mapped attachments;
replyTo is never forwarded, so two calls differing only in replyTo hand
the transport identical messages (and identical logs and outcome). -/
theorem sendEmail_message_shape (o : SendEmailOptions) (r : Option String)
    (sr : Except SmtpError SendEmailResponse) :
    ((sendEmail { o with replyTo := r } sr).message = (sendEmail o sr).message)
    ∧ ((sendEmail o sr).message.«to» = o.«to»)
    ∧ ((sendEmail o sr).message.«from» = o.«from»)
    ∧ ((sendEmail o sr).message.subject = o.subject)
    ∧ ((sendEmail o sr).message.html = o.html)
    ∧ ((sendEmail o sr).message.text = o.text)
    ∧ ((sendEmail o sr).message.attachments
        = o.imageAttachments.map (fun l => l.map (fun a =>
            { filename := a.filename, path := a.path, cid := a.cid })))
    ∧ ((sendEmail { o with replyTo := r } sr).logs = (sendEmail o sr).logs)
    ∧ ((sendEmail { o with replyTo := r } sr).result = (sendEmail o sr).result) :=
  ⟨rfl, rfl, rfl, rfl, rfl, rfl, rfl, rfl, rfl⟩

/-- Witness for C10 at concrete inputs: a call with a replyTo set hands
the transport the same message as the call without it. -/
theorem sendEmail_message_shape_witness :
    (sendEmail
        { «from» := "a@x", «to» := "b@y", replyTo := some "c@z", subject := "s",
          html := "<p>h</p>", text := "t", smtp := { host := "smtp.example.com" } }
        (Except.ok { messageId := "m1", response := "250 OK" })).message
      = (sendEmail
          { «from» := "a@x", «to» := "b@y", subject := "s", html := "<p>h</p>", text := "t",
            smtp := { host := "smtp.example.com" } }
          (Except.ok { messageId := "m1", response := "250 OK" })).message :=
  (sendEmail_message_shape
    { «from» := "a@x", «to» := "b@y", subject := "s", html := "<p>h</p>", text := "t",
      smtp := { host := "smtp.example.com" } }
    (some "c@z")
    (Except.ok { messageId := "m1", response := "250 OK" })).1
